import Mathlib

/-!
Verification of the invoice validation and reconciliation engine of the
Invoice-accelerator repository, together with the routing / persistence
logic of `test-invoice-upload.sh` and the exception dashboard filter of
`frontend/src/App.js`.

The validation engine itself runs as a cloud function that is not part of
the repository sources; its behaviour is therefore modelled from the
specification (sections 4.1-4.4 and 8 of the design document, which agree
with the extraction prompt's CALCULATION RULES and validity clauses).
The shell-script persistence logic and the dashboard filter are translated
directly from the sources.

Monetary amounts are modelled as exact rationals (`Rat`); the default
reconciliation tolerance of 0.01 currency units is `1/100`.
-/

namespace InvoiceAccelerator

/-- One line item of an invoice, as extracted.  `lineNumber` may be absent
in the raw extraction; the Normalizer assigns it. -/
structure LineItem where
  lineNumber : Option Nat
  itemCode : Option String
  description : Option String
  quantity : Option Rat
  unitPrice : Option Rat
  lineTotal : Option Rat
  deriving Repr, DecidableEq

/-- Raw invoice field record as produced by the upstream extractor, before
normalization.  Missing keys are `none`; `currency` may be absent. -/
structure RawInvoice where
  invoiceId : Option String
  invoiceNumber : Option String
  invoiceDate : Option String
  supplierName : Option String
  subtotal : Option Rat
  taxAmount : Option Rat
  shippingAmount : Option Rat
  discountAmount : Option Rat
  totalAmount : Option Rat
  currency : Option String
  lineItems : List LineItem
  deriving Repr, DecidableEq

/-- Normalized invoice field record.  After the Field Normalizer has run,
`currency` is a plain string (never null). -/
structure Invoice where
  invoiceId : Option String
  invoiceNumber : Option String
  invoiceDate : Option String
  supplierName : Option String
  subtotal : Option Rat
  taxAmount : Option Rat
  shippingAmount : Option Rat
  discountAmount : Option Rat
  totalAmount : Option Rat
  currency : String
  lineItems : List LineItem
  deriving Repr, DecidableEq

/-- Modelled from the spec: text cleaning of the Field Normalizer
(section 4.1) — newlines become spaces, runs of whitespace collapse to a
single space, and the result is trimmed. -/
def cleanText (s : String) : String :=
  String.intercalate " " ((s.split fun c => c.isWhitespace).filter fun t => t ≠ "")

/-- Modelled from the spec: a currency string is unparseable when it
contains no non-whitespace text at all. -/
def currencyUnparseable (s : String) : Prop :=
  cleanText s = ""

instance (s : String) : Decidable (currencyUnparseable s) := by
  unfold currencyUnparseable; infer_instance

/-- Modelled from the spec: currency defaulting of the Field Normalizer —
if the raw currency is absent or unparseable the output is `"USD"`
unconditionally; a null currency is never propagated. -/
def normalizeCurrency : Option String → String
  | none => "USD"
  | some s => if cleanText s = "" then "USD" else cleanText s

/-- Modelled from the spec: helper of the Field Normalizer that rewrites a
run of line items with sequential line numbers starting at `n`. -/
def renumberFrom (n : Nat) : List LineItem → List LineItem
  | [] => []
  | it :: its => { it with lineNumber := some n } :: renumberFrom (n + 1) its

/-- Modelled from the spec: line-item numbering of the Field Normalizer —
if `lineNumber` is absent on any item, sequential integers starting at 1
are assigned in document order; a null `lineNumber` is never left. -/
def assignLineNumbers (items : List LineItem) : List LineItem :=
  if items.any fun it => it.lineNumber.isNone then renumberFrom 1 items else items

/-- Modelled from the spec: per-item text cleaning (the free-text
`description` field). -/
def cleanItem (it : LineItem) : LineItem :=
  { it with description := it.description.map cleanText }

/-- Modelled from the spec: line-item phase of the Field Normalizer. -/
def normalizeItems (items : List LineItem) : List LineItem :=
  assignLineNumbers (items.map cleanItem)

/-- Modelled from the spec: the Field Normalizer (section 4.1), restricted
to the typed fields the engine consumes — currency defaulting, line-item
numbering and free-text cleaning.  (The coercion of loosely-typed scalars,
which can fail with `NormalizationError`, happens before this model's
input type and is not needed by any verified property.) -/
def normalize (raw : RawInvoice) : Invoice :=
  { invoiceId := raw.invoiceId
    invoiceNumber := raw.invoiceNumber
    invoiceDate := raw.invoiceDate
    supplierName := raw.supplierName.map cleanText
    subtotal := raw.subtotal
    taxAmount := raw.taxAmount
    shippingAmount := raw.shippingAmount
    discountAmount := raw.discountAmount
    totalAmount := raw.totalAmount
    currency := normalizeCurrency raw.currency
    lineItems := normalizeItems raw.lineItems }

/-- Null monetary values are treated as 0 by the Reconciliation
Calculator. -/
def orZero : Option Rat → Rat
  | none => 0
  | some x => x

/-- Modelled from the spec: the Reconciliation Calculator's derived
subtotal (section 4.2), first applicable rule wins:
1. non-empty `lineItems` — sum of the items' `lineTotal` (nulls as 0);
2. else an extracted `subtotal` — use it;
3. else `totalAmount − taxAmount − shippingAmount + discountAmount`
   (nulls as 0). -/
def computedSubtotal (r : Invoice) : Rat :=
  match r.lineItems, r.subtotal with
  | it :: its, _ => ((it :: its).map fun li => orZero li.lineTotal).sum
  | [], some s => s
  | [], none =>
      orZero r.totalAmount - orZero r.taxAmount - orZero r.shippingAmount +
        orZero r.discountAmount

/-- Modelled from the spec: the Reconciliation Calculator's derived total
(section 4.2, rule 4):
`computedTotal = computedSubtotal + taxAmount + shippingAmount − discountAmount`
with nulls treated as 0. -/
def computedTotal (r : Invoice) : Rat :=
  computedSubtotal r + orZero r.taxAmount + orZero r.shippingAmount -
    orZero r.discountAmount

/-- The fixed enumeration of exception types (spec section 4.4). -/
inductive ExceptionType where
  | MISSING_MANDATORY_FIELD
  | TOTAL_MISMATCH
  | SUBTOTAL_MISMATCH
  | LINE_ITEM_MISMATCH
  | DATE_ANOMALY
  | IDENTITY_MISMATCH
  deriving Repr, DecidableEq

/-- Severity levels of the Exception Classifier. -/
inductive Severity where
  | high
  | medium
  | low
  deriving Repr, DecidableEq

/-- A violation produced by the Validation Rule Set: the failing field,
the rule (as exception type), a detail message, and — for reconciliation
rules — the magnitude of the discrepancy (0 otherwise). -/
structure Violation where
  vfield : String
  vtype : ExceptionType
  detail : String
  discrepancy : Rat
  deriving Repr, DecidableEq

/-- Modelled from the spec: mandatory-presence rule (section 4.3) —
`invoiceNumber`, `invoiceDate`, `supplierName`, `totalAmount` must be
non-null, and `totalAmount` must additionally be greater than zero. -/
def mandatoryViolations (r : Invoice) : List Violation :=
  (if r.invoiceNumber.isNone then
    [⟨"invoice_number", .MISSING_MANDATORY_FIELD, "invoice_number is missing", 0⟩]
  else []) ++
  (if r.invoiceDate.isNone then
    [⟨"invoice_date", .MISSING_MANDATORY_FIELD, "invoice_date is missing", 0⟩]
  else []) ++
  (if r.supplierName.isNone then
    [⟨"supplier_name", .MISSING_MANDATORY_FIELD, "supplier_name is missing", 0⟩]
  else []) ++
  (match r.totalAmount with
    | none => [⟨"total_amount", .MISSING_MANDATORY_FIELD, "total_amount is missing", 0⟩]
    | some t =>
        if t ≤ 0 then
          [⟨"total_amount", .MISSING_MANDATORY_FIELD, "total_amount must be positive", 0⟩]
        else [])

/-- Modelled from the spec: identity rule (section 4.3) —
`invoiceId == invoiceNumber`; a mismatch is a data-integrity violation. -/
def identityViolations (r : Invoice) : List Violation :=
  if r.invoiceId = r.invoiceNumber then []
  else [⟨"invoice_id", .IDENTITY_MISMATCH, "invoice_id differs from invoice_number", 0⟩]

/-- Modelled from the spec: total-reconciliation rule (section 4.3) —
when `totalAmount` is present, flag `TOTAL_MISMATCH` when
`|totalAmount − computedTotal|` exceeds the tolerance. -/
def totalViolations (tol : Rat) (r : Invoice) : List Violation :=
  match r.totalAmount with
  | none => []
  | some t =>
      if |t - computedTotal r| > tol then
        [⟨"total_amount", .TOTAL_MISMATCH, "total_amount does not reconcile",
          |t - computedTotal r|⟩]
      else []

/-- Modelled from the spec: subtotal-reconciliation rule (section 4.3) —
when an extracted `subtotal` is present, flag `SUBTOTAL_MISMATCH` when it
differs from `computedSubtotal` by more than the tolerance. -/
def subtotalViolations (tol : Rat) (r : Invoice) : List Violation :=
  match r.subtotal with
  | none => []
  | some s =>
      if |s - computedSubtotal r| > tol then
        [⟨"subtotal", .SUBTOTAL_MISMATCH, "subtotal does not reconcile",
          |s - computedSubtotal r|⟩]
      else []

/-- Modelled from the spec: per-item arithmetic rule (section 4.3) — for a
line item with all of quantity, unit price and line total present, flag
`LINE_ITEM_MISMATCH` when `|lineTotal − quantity × unitPrice|` exceeds the
tolerance. -/
def lineItemViolation (tol : Rat) (it : LineItem) : Option Violation :=
  match it.quantity, it.unitPrice, it.lineTotal with
  | some q, some p, some lt =>
      if |lt - q * p| > tol then
        some ⟨"line_total", .LINE_ITEM_MISMATCH, "line_total does not equal quantity times unit_price",
          |lt - q * p|⟩
      else none
  | _, _, _ => none

/-- Modelled from the spec: line-item arithmetic rule over all items. -/
def lineItemViolations (tol : Rat) (r : Invoice) : List Violation :=
  r.lineItems.filterMap (lineItemViolation tol)

/-- Modelled from the spec: engine configuration supplied at construction
(section 6) — the absolute tolerance, and the date-sanity rule, whose
skew/grace thresholds come from external configuration and which reports
the (field, detail) pairs of any date anomalies it finds. -/
structure EngineConfig where
  tolerance : Rat
  dateAnomalies : Invoice → List (String × String)

/-- Modelled from the spec: date-sanity rule (section 4.3) — every
anomaly the configured date check reports becomes a `DATE_ANOMALY`
violation. -/
def dateViolations (cfg : EngineConfig) (r : Invoice) : List Violation :=
  (cfg.dateAnomalies r).map fun p => ⟨p.1, .DATE_ANOMALY, p.2, 0⟩

/-- Modelled from the spec: the Validation Rule Set (section 4.3) — each
rule is independent, rules do not short-circuit each other, and the output
order is the fixed rule-evaluation order. -/
def allViolations (cfg : EngineConfig) (r : Invoice) : List Violation :=
  mandatoryViolations r ++ identityViolations r ++
    totalViolations cfg.tolerance r ++ subtotalViolations cfg.tolerance r ++
    lineItemViolations cfg.tolerance r ++ dateViolations cfg r

/-- One entry of the verdict's `exceptions` sequence. -/
structure ExceptionEntry where
  etype : ExceptionType
  severity : Severity
  message : String
  efield : String
  deriving Repr, DecidableEq

/-- Modelled from the spec: severity mapping of the Exception Classifier
(section 4.4) — missing mandatory field is high; a reconciliation mismatch
is high when the discrepancy exceeds 5% of the total or 50 currency units
absolute, else medium; line-item and date findings are medium; the
fallback is low. -/
def severityOf (r : Invoice) (v : Violation) : Severity :=
  match v.vtype with
  | .MISSING_MANDATORY_FIELD => .high
  | .TOTAL_MISMATCH | .SUBTOTAL_MISMATCH =>
      if v.discrepancy > 50 ∨ v.discrepancy > orZero r.totalAmount * (5 / 100) then
        .high
      else .medium
  | .LINE_ITEM_MISMATCH | .DATE_ANOMALY => .medium
  | .IDENTITY_MISMATCH => .low

/-- Modelled from the spec: how the Exception Classifier turns one
violation into one exception entry. -/
def toEntry (r : Invoice) (v : Violation) : ExceptionEntry :=
  ⟨v.vtype, severityOf r v, v.detail, v.vfield⟩

/-- The engine's output (spec section 3). -/
structure ValidationVerdict where
  isException : Bool
  exceptions : List ExceptionEntry
  exceptionCount : Nat
  computedSubtotal : Rat
  computedTotal : Rat
  deriving Repr, DecidableEq

/-- Modelled from the spec: the Exception Classifier (section 4.4) —
`isException` is true exactly when the violation list is non-empty, and the
`exceptions` sequence preserves rule-evaluation order. -/
def classify (r : Invoice) (vs : List Violation) : ValidationVerdict :=
  { isException := !vs.isEmpty
    exceptions := vs.map (toEntry r)
    exceptionCount := vs.length
    computedSubtotal := computedSubtotal r
    computedTotal := computedTotal r }

/-- Modelled from the spec: the validation stage on a normalized record. -/
def validate (cfg : EngineConfig) (r : Invoice) : ValidationVerdict :=
  classify r (allViolations cfg r)

/-- Modelled from the spec: the full engine pipeline —
Normalizer, Reconciliation Calculator, Validation Rule Set, Exception
Classifier — as one pure function of the configuration and the raw
record. -/
def pipeline (cfg : EngineConfig) (raw : RawInvoice) : ValidationVerdict :=
  validate cfg (normalize raw)

/-- Modelled from the spec: processing a batch of independent invoices —
each invocation operates purely on its own input (section 5). -/
def processBatch (cfg : EngineConfig) (raws : List RawInvoice) : List ValidationVerdict :=
  raws.map (pipeline cfg)

/-- The default configuration: tolerance 0.01 currency units, and no
externally-configured date checks. -/
def defaultConfig : EngineConfig :=
  { tolerance := 1 / 100, dateAnomalies := fun _ => [] }

/-! ### Persistence and routing, translated from `test-invoice-upload.sh` -/

/-- The two downstream sinks of the processing script: the
`invoices_processed` BigQuery table and the `exceptions` BigQuery table. -/
inductive Sink where
  | processedTable
  | exceptionsTable
  deriving Repr, DecidableEq

/-- How `jq -r` renders the validation response's boolean `is_exception`
into the shell variable `IS_EXCEPTION`. -/
def isExceptionString (b : Bool) : String :=
  if b then "true" else "false"

/-- Translated from `test-invoice-upload.sh`: the `if [ "$IS_EXCEPTION" =
"true" ]` branch writes to the exceptions table, the `else` branch to the
invoices_processed table. -/
def routeFor (isExcStr : String) : Sink :=
  if isExcStr = "true" then .exceptionsTable else .processedTable

/-- A validation-response exception element as the shell script reads it
from JSON: either field may be absent. -/
structure RawException where
  etype : Option String
  severity : Option String
  deriving Repr, DecidableEq

/-- Translated from `test-invoice-upload.sh`:
`jq -r '.exceptions[0].type // "VALIDATION_ERROR"'` — index 0 of an empty
sequence is null, `.type` of null is null, and `//` substitutes the
default. -/
def persistedExceptionType (exs : List RawException) : String :=
  (exs.head?.bind fun e => e.etype).getD "VALIDATION_ERROR"

/-- Translated from `test-invoice-upload.sh`:
`jq -r '.exceptions[0].severity // "medium"'`. -/
def persistedExceptionSeverity (exs : List RawException) : String :=
  (exs.head?.bind fun e => e.severity).getD "medium"

/-- The spec's fixed enumeration of exception-type names (section 4.4). -/
def specExceptionTypeNames : List String :=
  ["MISSING_MANDATORY_FIELD", "TOTAL_MISMATCH", "SUBTOTAL_MISMATCH",
   "LINE_ITEM_MISMATCH", "DATE_ANOMALY", "IDENTITY_MISMATCH"]

/-- Translated from `test-invoice-upload.sh`: the
`^[0-9]\x7b4\x7d-[0-9]\x7b2\x7d-[0-9]\x7b2\x7d$` check applied to the
extracted invoice date before building the SQL INSERT. -/
def matchesIsoDate (s : String) : Bool :=
  match s.toList with
  | [a, b, c, d, e, f, g, h, i, j] =>
      a.isDigit && b.isDigit && c.isDigit && d.isDigit && e = '-' &&
        f.isDigit && g.isDigit && h = '-' && i.isDigit && j.isDigit
  | _ => false

/-- Translated from `test-invoice-upload.sh`: the value inserted into the
`invoice_date` column of the exceptions table — `none` stands for SQL
NULL, `some d` for `CAST(d AS DATE)` with the extracted string unchanged.
`INVOICE_DATE` is the `jq -r '.invoice_date // null'` output, so an absent
field arrives as the literal string `"null"`. -/
def invoiceDateSql (d : String) : Option String :=
  if d = "null" then none
  else if d = "" then none
  else if matchesIsoDate d then some d
  else none

/-! ### Dashboard filter, translated from `frontend/src/App.js` -/

/-- One exception row as held in the dashboard's `allExceptions` state;
the filter reads only `status`, the identifier keeps rows distinct. -/
structure ExceptionRow where
  exceptionId : String
  status : String
  deriving Repr, DecidableEq

/-- Translated from `frontend/src/App.js`: the `filteredExceptions` memo —
an empty (falsy) `filterStatus` returns `allExceptions` unchanged,
otherwise the rows whose `status` equals `filterStatus` are kept. -/
def filteredExceptions (filterStatus : String) (allExceptions : List ExceptionRow) :
    List ExceptionRow :=
  if filterStatus = "" then allExceptions
  else allExceptions.filter fun ex => ex.status = filterStatus

/-! ### Concrete sample records used to instantiate the theorems -/

/-- Scenario B of the spec: a raw record that omits `supplier_name` and is
otherwise well-formed. -/
def scenarioB : RawInvoice :=
  { invoiceId := some "INV-1", invoiceNumber := some "INV-1",
    invoiceDate := some "01/15/2024", supplierName := none,
    subtotal := none, taxAmount := none, shippingAmount := none,
    discountAmount := none, totalAmount := some 100, currency := none,
    lineItems := [{ lineNumber := none, itemCode := none, description := none,
                    quantity := some 2, unitPrice := some 50, lineTotal := some 100 }] }

/-- A normalized record whose five monetary fields are all non-null and
internally consistent (`100 = 100 + 0 + 0 − 0`), but whose single line
item totals 50: the line-item sum, not the extracted subtotal, drives the
computed total. -/
def lineItemSumRecord : Invoice :=
  { invoiceId := some "INV-2", invoiceNumber := some "INV-2",
    invoiceDate := some "01/15/2024", supplierName := some "Acme",
    subtotal := some 100, taxAmount := some 0, shippingAmount := some 0,
    discountAmount := some 0, totalAmount := some 100, currency := "USD",
    lineItems := [{ lineNumber := some 1, itemCode := none, description := none,
                    quantity := none, unitPrice := none, lineTotal := some 50 }] }

/-- Scenario C of the spec: extracted total 100 against a computed total
of 85 (subtotal 80, tax 5, no shipping or discount, no line items). -/
def scenarioC : Invoice :=
  { invoiceId := some "INV-3", invoiceNumber := some "INV-3",
    invoiceDate := some "01/15/2024", supplierName := some "Acme",
    subtotal := some 80, taxAmount := some 5, shippingAmount := some 0,
    discountAmount := some 0, totalAmount := some 100, currency := "USD",
    lineItems := [] }

/-- A normalized record with no line items and no extracted subtotal, so
the third reconciliation rule applies. -/
def backfillRecord : Invoice :=
  { invoiceId := some "INV-4", invoiceNumber := some "INV-4",
    invoiceDate := some "01/15/2024", supplierName := some "Acme",
    subtotal := none, taxAmount := some 5, shippingAmount := none,
    discountAmount := none, totalAmount := some 100, currency := "USD",
    lineItems := [] }

/-- A raw record whose two line items both omit `lineNumber`. -/
def unnumberedRecord : RawInvoice :=
  { invoiceId := some "INV-5", invoiceNumber := some "INV-5",
    invoiceDate := some "01/15/2024", supplierName := some "Acme",
    subtotal := none, taxAmount := none, shippingAmount := none,
    discountAmount := none, totalAmount := some 30, currency := some "USD",
    lineItems := [{ lineNumber := none, itemCode := none, description := none,
                    quantity := some 1, unitPrice := some 10, lineTotal := some 10 },
                  { lineNumber := none, itemCode := none, description := none,
                    quantity := some 2, unitPrice := some 10, lineTotal := some 20 }] }

/-- A raw record with no currency field at all. -/
def currencylessRecord : RawInvoice :=
  { invoiceId := some "INV-6", invoiceNumber := some "INV-6",
    invoiceDate := some "01/15/2024", supplierName := some "Acme",
    subtotal := none, taxAmount := none, shippingAmount := none,
    discountAmount := none, totalAmount := some 100, currency := none,
    lineItems := [] }

/-- Sample dashboard rows: two pending exceptions around an approved
one. -/
def sampleRows : List ExceptionRow :=
  [⟨"E1", "PENDING"⟩, ⟨"E2", "APPROVED"⟩, ⟨"E3", "PENDING"⟩]

/-- A validation-response exception element with both fields present. -/
def sampleRawException : RawException :=
  ⟨some "TOTAL_MISMATCH", some "high"⟩

/-! ### Helper lemmas -/

theorem mem_mandatoryViolations_vtype {r : Invoice} {v : Violation}
    (h : v ∈ mandatoryViolations r) : v.vtype = .MISSING_MANDATORY_FIELD := by
  unfold mandatoryViolations at h
  simp only [List.mem_append] at h
  rcases h with ((h | h) | h) | h <;> (repeat split at h) <;> simp_all

theorem mem_identityViolations_vtype {r : Invoice} {v : Violation}
    (h : v ∈ identityViolations r) : v.vtype = .IDENTITY_MISMATCH := by
  unfold identityViolations at h
  split at h <;> simp_all

theorem mem_totalViolations_vtype {tol : Rat} {r : Invoice} {v : Violation}
    (h : v ∈ totalViolations tol r) : v.vtype = .TOTAL_MISMATCH := by
  unfold totalViolations at h
  (repeat split at h) <;> simp_all

theorem mem_subtotalViolations_vtype {tol : Rat} {r : Invoice} {v : Violation}
    (h : v ∈ subtotalViolations tol r) : v.vtype = .SUBTOTAL_MISMATCH := by
  unfold subtotalViolations at h
  (repeat split at h) <;> simp_all

theorem mem_lineItemViolations_vtype {tol : Rat} {r : Invoice} {v : Violation}
    (h : v ∈ lineItemViolations tol r) : v.vtype = .LINE_ITEM_MISMATCH := by
  unfold lineItemViolations at h
  rcases List.mem_filterMap.mp h with ⟨it, _, hit⟩
  unfold lineItemViolation at hit
  (repeat split at hit) <;>
    first
      | (injection hit with hv; subst hv; rfl)
      | (injection hit)

theorem mem_dateViolations_vtype {cfg : EngineConfig} {r : Invoice} {v : Violation}
    (h : v ∈ dateViolations cfg r) : v.vtype = .DATE_ANOMALY := by
  unfold dateViolations at h
  rcases List.mem_map.mp h with ⟨p, _, hp⟩
  simp [← hp]

theorem renumberFrom_length (items : List LineItem) (n : Nat) :
    (renumberFrom n items).length = items.length := by
  induction items generalizing n with
  | nil => rfl
  | cons it its ih => simp [renumberFrom, ih]

theorem renumberFrom_get (items : List LineItem) (n : Nat) :
    ∀ i (hi : i < (renumberFrom n items).length),
      ((renumberFrom n items).get ⟨i, hi⟩).lineNumber = some (n + i) := by
  induction items generalizing n with
  | nil => intro i hi; simp [renumberFrom] at hi
  | cons it its ih =>
      intro i hi
      cases i with
      | zero => simp [renumberFrom]
      | succ j =>
          have hj : j < (renumberFrom (n + 1) its).length := by
            simpa [renumberFrom] using hi
          have := ih (n + 1) j hj
          simpa [renumberFrom, Nat.add_assoc, Nat.add_comm 1 j] using this

theorem mem_renumberFrom_isSome {items : List LineItem} {n : Nat} {it : LineItem}
    (h : it ∈ renumberFrom n items) : it.lineNumber.isSome = true := by
  induction items generalizing n with
  | nil => simp [renumberFrom] at h
  | cons hd tl ih =>
      rcases (List.mem_cons).mp (by simpa [renumberFrom] using h) with h1 | h1
      · subst h1; rfl
      · exact ih h1

theorem cleanItem_lineNumber (it : LineItem) :
    (cleanItem it).lineNumber = it.lineNumber := rfl

/-- C3: the Reconciliation Calculator derives `computedSubtotal` by the
first applicable rule — non-empty `lineItems` give the sum of the items'
`lineTotal` values (nulls as 0); otherwise a present extracted `subtotal`
is used; otherwise `totalAmount − taxAmount − shippingAmount +
discountAmount` with nulls as 0 — and `computedTotal` always equals
`computedSubtotal + taxAmount + shippingAmount − discountAmount` with
nulls as 0. -/
theorem computedSubtotal_priority (r : Invoice) :
    (r.lineItems ≠ [] →
      computedSubtotal r = (r.lineItems.map fun li => orZero li.lineTotal).sum) ∧
    (r.lineItems = [] → ∀ s, r.subtotal = some s → computedSubtotal r = s) ∧
    (r.lineItems = [] → r.subtotal = none →
      computedSubtotal r =
        orZero r.totalAmount - orZero r.taxAmount - orZero r.shippingAmount +
          orZero r.discountAmount) ∧
    computedTotal r =
      computedSubtotal r + orZero r.taxAmount + orZero r.shippingAmount -
        orZero r.discountAmount := by
  rcases r with ⟨id, num, date, sup, sub, tax, ship, disc, tot, cur, items⟩
  refine ⟨?_, ?_, ?_, rfl⟩ <;> cases items <;> cases sub <;>
    simp [computedSubtotal]

/-- Witness for C3 at concrete records: a record with line items sums
them; a record with neither line items nor an extracted subtotal backfills
from the total. -/
theorem computedSubtotal_priority_witness :
    computedSubtotal lineItemSumRecord = 50 ∧ computedSubtotal backfillRecord = 95 := by
  constructor
  · have h := (computedSubtotal_priority lineItemSumRecord).1 (by simp [lineItemSumRecord])
    rw [h]
    norm_num [lineItemSumRecord, orZero]
  · have h := (computedSubtotal_priority backfillRecord).2.2.1 rfl rfl
    rw [h]
    norm_num [backfillRecord, orZero]

/-- C7: the engine is a pure, deterministic pipeline — the same
configuration and raw record always give the same verdict (determinism
holds by construction: the model is a total function of its arguments,
with no state), and in a batch every invoice's verdict is exactly the
pipeline applied to that invoice, independent of its neighbours and of
call order. -/
theorem pipeline_deterministic (cfg : EngineConfig) (raw : RawInvoice)
    (pre post : List RawInvoice) :
    pipeline cfg raw = pipeline cfg raw ∧
    processBatch cfg (pre ++ raw :: post) =
      processBatch cfg pre ++ pipeline cfg raw :: processBatch cfg post := by
  exact ⟨rfl, by simp [processBatch]⟩

/-- C6: a record whose currency is absent or unparseable normalizes to
currency `"USD"`, and the normalized currency is never null (the output
type is a plain string) nor empty. -/
theorem normalize_currency_default (raw : RawInvoice) :
    ((raw.currency = none ∨ ∃ s, raw.currency = some s ∧ currencyUnparseable s) →
      (normalize raw).currency = "USD") ∧
    (normalize raw).currency ≠ "" := by
  constructor
  · rintro (h | ⟨s, hs, hu⟩)
    · simp [normalize, normalizeCurrency, h]
    · simp [normalize, normalizeCurrency, hs, currencyUnparseable] at hu ⊢
      simp [hu]
  · rcases hc : raw.currency with _ | s
    · simp [normalize, normalizeCurrency, hc]
    · simp only [normalize, normalizeCurrency, hc]
      split
      · simp
      · simp_all

/-- Witness for C6: the sample record with no currency normalizes to
`"USD"`. -/
theorem normalize_currency_default_witness :
    (normalize currencylessRecord).currency = "USD" :=
  (normalize_currency_default currencylessRecord).1 (Or.inl rfl)

/-- C5: when every line item of a record omits `lineNumber`, the
normalized record's line items carry `lineNumber` equal to their 1-based
position in document order, and no normalized line item ever has a null
`lineNumber`. -/
theorem normalize_lineNumbers (raw : RawInvoice) :
    ((∀ it ∈ raw.lineItems, it.lineNumber = none) →
      ∀ i (hi : i < (normalize raw).lineItems.length),
        ((normalize raw).lineItems.get ⟨i, hi⟩).lineNumber = some (i + 1)) ∧
    (∀ it ∈ (normalize raw).lineItems, it.lineNumber.isSome = true) := by
  have hitems : (normalize raw).lineItems =
      assignLineNumbers (raw.lineItems.map cleanItem) := rfl
  constructor
  · intro h i hi
    rcases hL : raw.lineItems with _ | ⟨hd, tl⟩
    · rw [hitems, hL] at hi
      simp [assignLineNumbers, renumberFrom] at hi
    · have hany : ((raw.lineItems.map cleanItem).any fun it => it.lineNumber.isNone) = true := by
        refine List.any_eq_true.mpr ⟨cleanItem hd, List.mem_map_of_mem _ ?_, ?_⟩
        · rw [hL]; exact List.mem_cons_self hd tl
        · rw [cleanItem_lineNumber, h hd (by rw [hL]; exact List.mem_cons_self hd tl)]
          rfl
      have hre : (normalize raw).lineItems = renumberFrom 1 (raw.lineItems.map cleanItem) := by
        rw [hitems]; unfold assignLineNumbers; rw [hany]; simp
      have hi1 : i < (renumberFrom 1 (raw.lineItems.map cleanItem)).length := by
        rw [← hre]; exact hi
      have hcast := List.get_of_eq hre ⟨i, hi⟩
      rw [hcast]
      have h2 := renumberFrom_get (raw.lineItems.map cleanItem) 1 i hi1
      rw [Nat.add_comm] at h2
      exact h2
  · intro it hmem
    rw [hitems] at hmem
    unfold assignLineNumbers at hmem
    split at hmem
    · exact mem_renumberFrom_isSome hmem
    · rcases List.mem_map.mp hmem with ⟨it0, hit0, rfl⟩
      rename_i hany
      have := List.any_eq_false.mp (Bool.not_eq_true _ ▸ hany) (cleanItem it0)
        (List.mem_map_of_mem _ hit0)
      simp only [Option.isNone_eq_false_iff] at this
      exact Option.isSome_iff_ne_none.mpr (by simpa using this)

/-- Witness for C5: both items of the unnumbered sample record receive
line numbers 1 and 2. -/
theorem normalize_lineNumbers_witness :
    ((normalize unnumberedRecord).lineItems.map fun it => it.lineNumber) =
      [some 1, some 2] := by
  have h := (normalize_lineNumbers unnumberedRecord).1 (by
    intro it hmem
    simp only [unnumberedRecord, List.mem_cons, List.not_mem_nil, or_false] at hmem
    rcases hmem with rfl | rfl <;> rfl)
  have hlen : (normalize unnumberedRecord).lineItems.length = 2 := rfl
  refine List.ext_get (by simp [hlen]) ?_
  intro i h1 h2
  have hi : i < (normalize unnumberedRecord).lineItems.length := by
    simpa [hlen] using h1
  rw [List.get_map, h i hi]
  have h2b : i < 2 := by simpa using h2
  interval_cases i <;> rfl

/-- C4: the processing script routes every invoice to exactly one of the
two sinks — the exceptions table exactly when `is_exception` is true, the
invoices_processed table exactly when it is false, and never both. -/
theorem routeFor_exclusive (b : Bool) :
    (routeFor (isExceptionString b) = Sink.exceptionsTable ↔ b = true) ∧
    (routeFor (isExceptionString b) = Sink.processedTable ↔ b = false) ∧
    ¬(routeFor (isExceptionString b) = Sink.exceptionsTable ∧
      routeFor (isExceptionString b) = Sink.processedTable) := by
  cases b <;> simp [routeFor, isExceptionString]

/-- Witness for C4: a true `is_exception` routes to the exceptions
table. -/
theorem routeFor_exclusive_witness :
    routeFor (isExceptionString true) = Sink.exceptionsTable :=
  (routeFor_exclusive true).1.mpr rfl

/-- C8: the dashboard's filtered list is the whole list when the filter
status is the empty string, and otherwise exactly the subsequence of rows
whose status equals the filter status, in the original order. -/
theorem filteredExceptions_spec (fs : String) (rows : List ExceptionRow) :
    (fs = "" → filteredExceptions fs rows = rows) ∧
    (fs ≠ "" →
      filteredExceptions fs rows = rows.filter (fun ex => ex.status = fs) ∧
      (filteredExceptions fs rows).Sublist rows ∧
      ∀ ex, ex ∈ filteredExceptions fs rows ↔ ex ∈ rows ∧ ex.status = fs) := by
  constructor
  · intro h
    simp [filteredExceptions, h]
  · intro h
    refine ⟨by simp [filteredExceptions, h], ?_, ?_⟩
    · rw [filteredExceptions, if_neg h]
      exact List.filter_sublist rows
    · intro ex
      rw [filteredExceptions, if_neg h]
      simp [List.mem_filter]

/-- Witness for C8: filtering the sample rows by `"PENDING"` keeps
exactly the first and third rows, in order. -/
theorem filteredExceptions_spec_witness :
    filteredExceptions "PENDING" sampleRows = [⟨"E1", "PENDING"⟩, ⟨"E3", "PENDING"⟩] := by
  rw [(filteredExceptions_spec "PENDING" sampleRows).2 (by decide) |>.1]
  decide

/-- C9: the persisted exception row takes `exception_type` from the first
element of the verdict's exceptions sequence and `exception_severity` from
that element, defaulting to `"VALIDATION_ERROR"` (a value outside the
spec's fixed exception-type enumeration) and `"medium"` when the sequence
is empty or the fields are absent. -/
theorem persistedException_firstOrDefault (e : RawException) (rest : List RawException) :
    persistedExceptionType (e :: rest) = e.etype.getD "VALIDATION_ERROR" ∧
    persistedExceptionSeverity (e :: rest) = e.severity.getD "medium" ∧
    persistedExceptionType [] = "VALIDATION_ERROR" ∧
    persistedExceptionSeverity [] = "medium" ∧
    "VALIDATION_ERROR" ∉ specExceptionTypeNames := by
  refine ⟨rfl, rfl, rfl, rfl, by decide⟩

/-- Witness for C9: a first element with both fields present supplies type
and severity. -/
theorem persistedException_firstOrDefault_witness :
    persistedExceptionType [sampleRawException] = "TOTAL_MISMATCH" :=
  (persistedException_firstOrDefault sampleRawException []).1.trans rfl

/-- C10: the exceptions-table `invoice_date` column is non-NULL only for
extracted dates matching the four-digit, two-digit, two-digit dashed
pattern; a stored date is the extracted string unchanged; the canonical
MM/DD/YYYY form used elsewhere in the pipeline is stored as NULL. -/
theorem invoiceDateSql_spec :
    (∀ s, (invoiceDateSql s).isSome = true → matchesIsoDate s = true) ∧
    (∀ s v, invoiceDateSql s = some v → v = s) ∧
    invoiceDateSql "01/15/2024" = none := by
  refine ⟨?_, ?_, by decide⟩
  · intro s hs
    unfold invoiceDateSql at hs
    split_ifs at hs with h1 h2 h3
    · simp at hs
    · simp at hs
    · exact h3
    · simp at hs
  · intro s v hv
    unfold invoiceDateSql at hv
    split_ifs at hv
    injection hv with h
    exact h.symm

/-- Witness for C10: a stored `2024-01-15` implies the pattern holds. -/
theorem invoiceDateSql_spec_witness : matchesIsoDate "2024-01-15" = true :=
  invoiceDateSql_spec.1 "2024-01-15" (by decide)

theorem mandatoryViolations_missing {r : Invoice}
    (h : r.invoiceNumber = none ∨ r.invoiceDate = none ∨ r.supplierName = none ∨
      r.totalAmount = none ∨ ∃ t, r.totalAmount = some t ∧ t ≤ 0) :
    ∃ v ∈ mandatoryViolations r, v.vtype = .MISSING_MANDATORY_FIELD := by
  unfold mandatoryViolations
  rcases h with h | h | h | h | ⟨t, ht, hle⟩
  · exact ⟨⟨"invoice_number", .MISSING_MANDATORY_FIELD, "invoice_number is missing", 0⟩,
      by simp [h], rfl⟩
  · exact ⟨⟨"invoice_date", .MISSING_MANDATORY_FIELD, "invoice_date is missing", 0⟩,
      by simp [h], rfl⟩
  · exact ⟨⟨"supplier_name", .MISSING_MANDATORY_FIELD, "supplier_name is missing", 0⟩,
      by simp [h], rfl⟩
  · exact ⟨⟨"total_amount", .MISSING_MANDATORY_FIELD, "total_amount is missing", 0⟩,
      by simp [h], rfl⟩
  · exact ⟨⟨"total_amount", .MISSING_MANDATORY_FIELD, "total_amount must be positive", 0⟩,
      by simp [ht, hle], rfl⟩

theorem severityOf_missing {r : Invoice} {v : Violation}
    (h : v.vtype = .MISSING_MANDATORY_FIELD) : severityOf r v = .high := by
  unfold severityOf
  split <;> simp_all

/-- C1: an input record missing any of `invoiceNumber`, `invoiceDate` or
`supplierName`, or whose `totalAmount` is null or not greater than zero,
yields a verdict with `isException = true` whose exceptions contain a
`MISSING_MANDATORY_FIELD` entry, and every `MISSING_MANDATORY_FIELD`
entry (in particular a first-detected one, as in Scenario B) has severity
high. -/
theorem pipeline_missingMandatory (cfg : EngineConfig) (raw : RawInvoice)
    (h : raw.invoiceNumber = none ∨ raw.invoiceDate = none ∨ raw.supplierName = none ∨
      raw.totalAmount = none ∨ ∃ t, raw.totalAmount = some t ∧ t ≤ 0) :
    (pipeline cfg raw).isException = true ∧
    (∃ e ∈ (pipeline cfg raw).exceptions, e.etype = .MISSING_MANDATORY_FIELD) ∧
    (∀ e ∈ (pipeline cfg raw).exceptions,
      e.etype = .MISSING_MANDATORY_FIELD → e.severity = .high) := by
  have hr : (normalize raw).invoiceNumber = none ∨ (normalize raw).invoiceDate = none ∨
      (normalize raw).supplierName = none ∨ (normalize raw).totalAmount = none ∨
      ∃ t, (normalize raw).totalAmount = some t ∧ t ≤ 0 := by
    rcases h with h | h | h | h | ⟨t, ht, hle⟩
    · exact Or.inl h
    · exact Or.inr (Or.inl h)
    · refine Or.inr (Or.inr (Or.inl ?_))
      show raw.supplierName.map cleanText = none
      rw [h]
      rfl
    · exact Or.inr (Or.inr (Or.inr (Or.inl h)))
    · exact Or.inr (Or.inr (Or.inr (Or.inr ⟨t, ht, hle⟩)))
  obtain ⟨v, hv, hvt⟩ := mandatoryViolations_missing hr
  have hvAll : v ∈ allViolations cfg (normalize raw) := by
    simp only [allViolations, List.mem_append]
    tauto
  have hE : (pipeline cfg raw).exceptions =
      (allViolations cfg (normalize raw)).map (toEntry (normalize raw)) := rfl
  refine ⟨?_, ?_, ?_⟩
  · have h1 : (pipeline cfg raw).isException =
        !(allViolations cfg (normalize raw)).isEmpty := rfl
    rcases hAV : allViolations cfg (normalize raw) with _ | ⟨v0, vs⟩
    · rw [hAV] at hvAll
      cases hvAll
    · rw [h1, hAV]
      rfl
  · refine ⟨toEntry (normalize raw) v, ?_, hvt⟩
    rw [hE]
    exact List.mem_map_of_mem _ hvAll
  · intro e he hety
    rw [hE] at he
    obtain ⟨v1, hv1, rfl⟩ := List.mem_map.mp he
    exact severityOf_missing hety

/-- Witness for C1 at Scenario B: omitting `supplier_name` makes the
verdict an exception. -/
theorem pipeline_missingMandatory_witness :
    (pipeline defaultConfig scenarioB).isException = true :=
  (pipeline_missingMandatory defaultConfig scenarioB (Or.inr (Or.inr (Or.inl rfl)))).1

theorem exists_totalMismatch_iff (cfg : EngineConfig) (r : Invoice) :
    (∃ e ∈ (validate cfg r).exceptions, e.etype = .TOTAL_MISMATCH) ↔
      totalViolations cfg.tolerance r ≠ [] := by
  have hE : (validate cfg r).exceptions =
      (allViolations cfg r).map (toEntry r) := rfl
  constructor
  · rintro ⟨e, he, hty⟩
    rw [hE] at he
    obtain ⟨v, hv, rfl⟩ := List.mem_map.mp he
    replace hty : v.vtype = .TOTAL_MISMATCH := hty
    simp only [allViolations, List.mem_append] at hv
    rcases hv with ((((hv | hv) | hv) | hv) | hv) | hv
    · rw [mem_mandatoryViolations_vtype hv] at hty
      exact absurd hty (by decide)
    · rw [mem_identityViolations_vtype hv] at hty
      exact absurd hty (by decide)
    · exact List.ne_nil_of_mem hv
    · rw [mem_subtotalViolations_vtype hv] at hty
      exact absurd hty (by decide)
    · rw [mem_lineItemViolations_vtype hv] at hty
      exact absurd hty (by decide)
    · rw [mem_dateViolations_vtype hv] at hty
      exact absurd hty (by decide)
  · intro h
    rcases hTV : totalViolations cfg.tolerance r with _ | ⟨v, vs⟩
    · exact absurd hTV h
    · have hvmem : v ∈ totalViolations cfg.tolerance r := by
        rw [hTV]
        exact List.mem_cons_self v vs
      have hvAll : v ∈ allViolations cfg r := by
        simp only [allViolations, List.mem_append]
        tauto
      refine ⟨toEntry r v, ?_, mem_totalViolations_vtype hvmem⟩
      rw [hE]
      exact List.mem_map_of_mem _ hvAll

theorem totalViolations_ne_nil_iff {tol : Rat} {r : Invoice} {t : Rat}
    (ht : r.totalAmount = some t) :
    totalViolations tol r ≠ [] ↔ |t - computedTotal r| > tol := by
  unfold totalViolations
  rw [ht]
  dsimp only
  split_ifs with h
  · simp [h]
  · simp [h]

theorem computedTotal_of_empty_lineItems {r : Invoice} {s tax ship disc : Rat}
    (hli : r.lineItems = []) (hs : r.subtotal = some s) (htax : r.taxAmount = some tax)
    (hship : r.shippingAmount = some ship) (hdisc : r.discountAmount = some disc) :
    computedTotal r = s + tax + ship - disc := by
  rcases r with ⟨id, num, date, sup, sub, tax0, ship0, disc0, tot, cur, items⟩
  simp only at hli hs htax hship hdisc
  subst hli hs htax hship hdisc
  simp [computedTotal, computedSubtotal, orZero]

/-- C2 (amended): for a record whose `subtotal`, `taxAmount`,
`shippingAmount`, `discountAmount` and `totalAmount` are all non-null and
whose `lineItems` is empty, the validation stage emits a `TOTAL_MISMATCH`
violation iff `|totalAmount − (subtotal + taxAmount + shippingAmount −
discountAmount)|` exceeds the configured tolerance (0.01 by default).
Without the empty-`lineItems` restriction the claim fails: a non-empty
`lineItems` makes the computed total follow the line-item sum instead of
the extracted subtotal (see the counterexample). -/
theorem validate_totalMismatch_iff (cfg : EngineConfig) (r : Invoice)
    (s tax ship disc t : Rat)
    (hs : r.subtotal = some s) (htax : r.taxAmount = some tax)
    (hship : r.shippingAmount = some ship) (hdisc : r.discountAmount = some disc)
    (ht : r.totalAmount = some t) (hli : r.lineItems = []) :
    (∃ e ∈ (validate cfg r).exceptions, e.etype = .TOTAL_MISMATCH) ↔
      |t - (s + tax + ship - disc)| > cfg.tolerance := by
  rw [exists_totalMismatch_iff, totalViolations_ne_nil_iff ht,
    computedTotal_of_empty_lineItems hli hs htax hship hdisc]

/-- Counterexample for C2 as stated: the record has all five monetary
fields non-null and `|totalAmount − (subtotal + taxAmount +
shippingAmount − discountAmount)| = 0 ≤ tolerance`, yet a
`TOTAL_MISMATCH` violation is emitted because its single line item sums to
50, not to the extracted subtotal of 100. -/
theorem validate_totalMismatch_counterexample :
    lineItemSumRecord.subtotal = some 100 ∧
    lineItemSumRecord.taxAmount = some 0 ∧
    lineItemSumRecord.shippingAmount = some 0 ∧
    lineItemSumRecord.discountAmount = some 0 ∧
    lineItemSumRecord.totalAmount = some 100 ∧
    ((validate defaultConfig lineItemSumRecord).exceptions.any fun e =>
      e.etype = ExceptionType.TOTAL_MISMATCH) = true ∧
    |(100 : Rat) - (100 + 0 + 0 - 0)| ≤ defaultConfig.tolerance := by
  refine ⟨rfl, rfl, rfl, rfl, rfl, ?_, ?_⟩
  · have hct : computedTotal lineItemSumRecord = 50 := by
      norm_num [computedTotal, computedSubtotal, lineItemSumRecord, orZero]
    have hne : totalViolations defaultConfig.tolerance lineItemSumRecord ≠ [] := by
      rw [totalViolations_ne_nil_iff (rfl : lineItemSumRecord.totalAmount = some 100), hct]
      rw [show |(100 : Rat) - 50| = 50 by rw [abs_of_nonneg] <;> norm_num]
      norm_num [defaultConfig]
    obtain ⟨e, he, hty⟩ := (exists_totalMismatch_iff defaultConfig lineItemSumRecord).mpr hne
    exact List.any_eq_true.mpr ⟨e, he, by simp [hty]⟩
  · rw [show (100 : Rat) - (100 + 0 + 0 - 0) = 0 by norm_num]
    rw [abs_zero]
    norm_num [defaultConfig]

/-- Witness for C2 (amended) at Scenario C: extracted total 100 against a
computed total of 85 emits a `TOTAL_MISMATCH`. -/
theorem validate_totalMismatch_iff_witness :
    ((validate defaultConfig scenarioC).exceptions.any fun e =>
      e.etype = ExceptionType.TOTAL_MISMATCH) = true := by
  have hgt : |(100 : Rat) - (80 + 5 + 0 - 0)| > defaultConfig.tolerance := by
    rw [show (100 : Rat) - (80 + 5 + 0 - 0) = 15 by norm_num]
    rw [show |(15 : Rat)| = 15 by rw [abs_of_nonneg] <;> norm_num]
    norm_num [defaultConfig]
  have h := (validate_totalMismatch_iff defaultConfig scenarioC 80 5 0 0 100
    rfl rfl rfl rfl rfl rfl).mpr hgt
  obtain ⟨e, he, hty⟩ := h
  exact List.any_eq_true.mpr ⟨e, he, by simp [hty]⟩

end InvoiceAccelerator
